import Mathlib

/-
Verification development for the Epub-Flask-API repository (src/app).

The embedding below translates the data model (src/app/models.py), the
configuration constants (src/app/config.py) and the route handlers
(src/app/routes.py) into Lean.  Database tables are lists of row
structures, the filesystem is an association list from paths to stored
blobs, and each HTTP handler is a function from the bearer-token
identity and the parsed request to a response together with the new
application state.  Fernet ciphertext is represented symbolically by a
dedicated constructor, and the argon2 password hash by a tagging
function, since the claims never inspect their bit-level contents.
The JWT identity is modelled as the numeric id it encodes (the code
stores str(id) in the token and the ORM coerces it back on filtering).
-/

/-- Contents of a file on disk: raw bytes, or the Fernet ciphertext of the
given plaintext bytes (symbolic model of cryptography.fernet encryption
with the configured key). -/
inductive Blob where
  | raw : List Nat → Blob
  | fernet : List Nat → Blob
deriving DecidableEq, Repr

/-- Row of the publisher table (models.py, class Publisher). -/
structure Publisher where
  publisher_id : Nat
  name : String
  email : String
  password : String
  phone : String
  geo_location : String
  address : String
deriving DecidableEq, Repr

/-- Row of the category table (models.py, class Category). -/
structure Category where
  category_id : Nat
  publisher_id : Nat
  category_name : String
  description : String
deriving DecidableEq, Repr

/-- Row of the book table (models.py, class Book).  The server-generated
timestamps are carried in their rendered strftime form, which is the only
way the handlers observe them. -/
structure Book where
  book_id : Nat
  publisher_id : Nat
  category_id : Nat
  title : String
  author : String
  isbn : String
  epub_file : Option String
  cover_image : Option String
  language : String
  genre : String
  e_book_type : String
  price : Int
  rental_price : Int
  description : Option String
  created_at : String
  updated_at : String
deriving DecidableEq, Repr

/-- Row of the files table (models.py, class File). -/
structure File where
  file_id : Nat
  publisher_id : Nat
  book_id : Nat
  file_path : String
deriving DecidableEq, Repr

/-- Row of the reader table (models.py, class Reader). -/
structure Reader where
  reader_id : Nat
  name : String
  email : String
  password : String
  phone : String
  geo_location : String
  address : String
deriving DecidableEq, Repr

/-- Row of the highlights table (models.py, class Highlight). -/
structure Highlight where
  hl_id : Nat
  reader_id : Nat
  book_id : Nat
  text : String
  highlight_range : String
  color : String
deriving DecidableEq, Repr

/-- Row of the notes table (models.py, class Note). -/
structure Note where
  note_id : Nat
  reader_id : Nat
  book_id : Nat
  text : String
  note_range : String
deriving DecidableEq, Repr

/-- Row of the books_purchased table (models.py, class BooksPurchased).
The purchase timestamp is irrelevant to every claim and omitted. -/
structure BooksPurchased where
  bp_id : Nat
  reader_id : Nat
  book_id : Nat
  bookmark : Nat
deriving DecidableEq, Repr

/-- Row of the cart table (models.py, class Cart). -/
structure Cart where
  cart_id : Nat
  reader_id : Nat
  book_id : Nat
deriving DecidableEq, Repr

/-- The relational database exactly as declared in src/app/models.py: one
list per declared model class.  models.py declares no Wishlist class, so
there is no wishlist table here. -/
structure DB where
  publishers : List Publisher
  categories : List Category
  books : List Book
  files : List File
  readers : List Reader
  highlights : List Highlight
  notes : List Note
  booksPurchased : List BooksPurchased
  carts : List Cart
deriving DecidableEq, Repr

/-- Application state: database plus on-disk files, keyed by path relative
to the application directory (config.py keeps both upload folders under
the application base directory). -/
structure AppState where
  db : DB
  fs : List (String × Blob)
deriving DecidableEq, Repr

/-- config.py: FILE_UPLOAD_FOLDER (relative part of the path). -/
def FILE_UPLOAD_FOLDER : String := "uploads/files"

/-- config.py: IMAGE_UPLOAD_FOLDER (relative part of the path). -/
def IMAGE_UPLOAD_FOLDER : String := "uploads/cover_images"

/-- config.py: ALLOWED_EXTENSIONS. -/
def ALLOWED_EXTENSIONS : List String := ["pdf", "epub", "jpg", "jpeg", "png"]

/-- Class names declared in src/app/models.py, in source order. -/
def models_declared_classes : List String :=
  ["Publisher", "Category", "Book", "File", "Reader", "Highlight", "Note",
   "BooksPurchased", "Cart"]

/-- Names imported from .models by src/app/routes.py line 6. -/
def routes_model_imports : List String :=
  ["Publisher", "Category", "Book", "File", "Reader", "Highlight", "Note",
   "BooksPurchased", "Cart", "Wishlist"]

/-- Column attributes declared on the Book model (models.py lines 35-55). -/
def book_columns : List String :=
  ["book_id", "publisher_id", "category_id", "title", "author", "isbn",
   "epub_file", "cover_image", "language", "genre", "e_book_type", "price",
   "rental_price", "description", "created_at", "updated_at"]

/-- Constructor-settable mapped attributes of the Book model: its columns,
its own relationship (files) and the backrefs contributed by Publisher,
Category, Highlight, Note, BooksPurchased and Cart. -/
def book_mapped_attributes : List String :=
  book_columns ++ ["files", "publisher", "category", "highlights", "notes",
   "purchases", "carts"]

/-- Keyword-argument names passed to the Book constructor by upload_book
(routes.py lines 229-244). -/
def upload_book_kwargs : List String :=
  ["publisher_id", "category_id", "title", "author", "isbn", "epub_file",
   "cover_image", "language", "genre", "e_book_type", "price",
   "rental_price", "description", "status"]

/-- JSON value appearing in a response body. -/
inductive Jx where
  | jnull : Jx
  | jstr : String → Jx
  | jnum : Int → Jx
  | jobj : List (String × Jx) → Jx
deriving Repr

/-- HTTP response: a jsonify body with a status code, a send_file body, or
a plain Flask error page (abort, or an uncaught exception). -/
inductive Resp where
  | json : Nat → Jx → Resp
  | file : Nat → Blob → Resp
  | httpError : Nat → String → Resp
deriving Repr

/-- Status code of a response. -/
def Resp.status : Resp → Nat
  | .json s _ => s
  | .file s _ => s
  | .httpError s _ => s

/-- Body shaped jsonify(\x7b"error": s\x7d). -/
def errJ (s : String) : Jx := .jobj [("error", .jstr s)]

/-- Body shaped jsonify(\x7b"message": s\x7d). -/
def msgJ (s : String) : Jx := .jobj [("message", .jstr s)]

/-- An optional string serialized by jsonify (None becomes null). -/
def jopt : Option String → Jx
  | none => Jx.jnull
  | some s => Jx.jstr s

/-- Lookup of a path on disk (os.path.exists plus reading the file). -/
def fsLookup (fs : List (String × Blob)) (path : String) : Option Blob :=
  (fs.find? (fun e => e.1 == path)).map (fun e => e.2)

/-- Writing a file with open(path, "wb"): creates or overwrites. -/
def fsWrite (fs : List (String × Blob)) (path : String) (b : Blob) :
    List (String × Blob) :=
  (path, b) :: fs.filter (fun e => ¬ (e.1 == path))

/-- os.remove. -/
def fsRemove (fs : List (String × Blob)) (path : String) :
    List (String × Blob) :=
  fs.filter (fun e => ¬ (e.1 == path))

/-- Primary-key value the database assigns to a freshly inserted row
(autoincrement: one more than the largest key in use). -/
def nextId (ids : List Nat) : Nat := ids.foldr max 0 + 1

/-- Python truthiness of an optional form/JSON string: absent and the
empty string are falsy. -/
def truthyS : Option String → Bool
  | none => false
  | some s => ¬ (s == "")

/-- A JSON request body for the registration endpoints: an object with
string values. -/
abbrev RegisterBody := List (String × String)

/-- Python dict key-membership test (field in data). -/
def hasKey (d : RegisterBody) (k : String) : Bool := d.any (fun e => e.1 == k)

/-- Python dict lookup data[k]. -/
def getKey (d : RegisterBody) (k : String) : Option String :=
  (d.find? (fun e => e.1 == k)).map (fun e => e.2)

/-- routes.py lines 28 and 513: the required registration fields. -/
def register_required_fields : List String :=
  ["name", "email", "password", "phone", "geo_location", "address"]

/-- Symbolic argon2 hash of a password (ph.hash). -/
def ph_hash (password : String) : String := "argon2id$" ++ password

/-- routes.py pub_register (lines 24-49).  Checks field presence, rejects a
duplicate publisher email, otherwise inserts the new publisher row. -/
def pub_register (data : RegisterBody) (st : AppState) : Resp × AppState :=
  if ¬ (register_required_fields.all (fun f => hasKey data f)) then
    (.json 400 (errJ "Missing required fields"), st)
  else
    let email := (getKey data "email").getD ""
    if st.db.publishers.any (fun p => p.email == email) then
      (.json 400 (errJ "Email already registered"), st)
    else
      let newPub : Publisher :=
        { publisher_id := nextId (st.db.publishers.map (fun p => p.publisher_id))
          name := (getKey data "name").getD ""
          email := email
          password := ph_hash ((getKey data "password").getD "")
          phone := (getKey data "phone").getD ""
          geo_location := (getKey data "geo_location").getD ""
          address := (getKey data "address").getD "" }
      (.json 201 (msgJ "Registration successful"),
       { st with db.publishers := st.db.publishers ++ [newPub] })

/-- routes.py reader_register (lines 509-534), mirror of pub_register on
the reader table. -/
def reader_register (data : RegisterBody) (st : AppState) : Resp × AppState :=
  if ¬ (register_required_fields.all (fun f => hasKey data f)) then
    (.json 400 (errJ "Missing required fields"), st)
  else
    let email := (getKey data "email").getD ""
    if st.db.readers.any (fun r => r.email == email) then
      (.json 400 (errJ "Email already registered"), st)
    else
      let newReader : Reader :=
        { reader_id := nextId (st.db.readers.map (fun r => r.reader_id))
          name := (getKey data "name").getD ""
          email := email
          password := ph_hash ((getKey data "password").getD "")
          phone := (getKey data "phone").getD ""
          geo_location := (getKey data "geo_location").getD ""
          address := (getKey data "address").getD "" }
      (.json 201 (msgJ "Registration successful"),
       { st with db.readers := st.db.readers ++ [newReader] })

/-- routes.py delete_category (lines 122-148). -/
def delete_category (publisher_id : Nat) (category_id : Nat) (st : AppState) :
    Resp × AppState :=
  match st.db.categories.find?
      (fun c => c.category_id == category_id && c.publisher_id == publisher_id) with
  | none => (.json 404 (errJ "Category not found or access denied"), st)
  | some _ =>
    match st.db.books.find? (fun b => b.category_id == category_id) with
    | some _ => (.json 400 (errJ "Cannot delete category with associated books"), st)
    | none =>
      (.json 200 (msgJ "Category deleted successfully"),
       { st with db.categories :=
          st.db.categories.filter (fun c => ¬ (c.category_id == category_id)) })

/-- Characters after the last dot (the second component of
filename.rsplit with separator dot), lowercased: the extension tested by
allowed_file. -/
def last_dot_ext (filename : String) : String :=
  String.mk ((filename.toList.reverse.takeWhile
    (fun c => ¬ (c == '.'))).reverse.map Char.toLower)

/-- routes.py allowed_file (lines 152-153): the part after the last dot,
lowercased, must be an allowed extension. -/
def allowed_file (filename : String) : Bool :=
  filename.toList.contains '.' &&
    ALLOWED_EXTENSIONS.contains (last_dot_ext filename)

/-- os.path.splitext(filename)[1]: the extension including its dot; dots
that only lead the name yield no extension. -/
def splitext_ext (filename : String) : String :=
  let cs := filename.toList
  let dotIdxs := (List.range cs.length).filter (fun i => cs.getD i ' ' == '.')
  match dotIdxs.getLast? with
  | none => ""
  | some i =>
    if (List.range i).any (fun j => ¬ (cs.getD j ' ' == '.')) then
      String.mk (cs.drop i)
    else ""

/-- routes.py encrypt_file (lines 157-167): Fernet encryption of the
uploaded bytes under the configured key, modelled symbolically. -/
def encrypt_file (content : List Nat) : Blob := Blob.fernet content

/-- A part of a multipart upload (werkzeug FileStorage): its client-side
filename and its bytes. -/
structure FilePart where
  filename : String
  content : List Nat
deriving DecidableEq, Repr

/-- Parsed multipart form of upload_book / update_book: request.form
fields (absent fields are none) and the two request.files parts. -/
structure UploadForm where
  title : Option String
  author : Option String
  isbn : Option String
  category_id : Option Nat
  language : Option String
  genre : Option String
  e_book_type : Option String
  price : Option Int
  rental_price : Option Int
  description : Option String
  filePart : Option FilePart
  cover_image : Option FilePart
deriving DecidableEq, Repr

/-- routes.py upload_book (lines 170-266).  The handler validates the
form, writes the encrypted content file (and a valid cover image) to disk,
and then calls the Book constructor with a status keyword.  The SQLAlchemy
constructor accepts only mapped attribute names and raises TypeError
otherwise; the broad except then rolls the session back and returns 500,
with the files already on disk.  The kwargs check below is that
constructor-level gate. -/
def upload_book (publisher_id : Nat) (form : UploadForm) (st : AppState) :
    Resp × AppState :=
  let title := form.title.getD ""
  if ¬ (truthyS form.title && truthyS form.author && truthyS form.isbn &&
        form.category_id.isSome) then
    (.json 400 (errJ "Missing required fields"), st)
  else
    let category_id := form.category_id.getD 0
    match st.db.categories.find?
        (fun c => c.category_id == category_id && c.publisher_id == publisher_id) with
    | none => (.json 400 (errJ "Invalid category ID"), st)
    | some _ =>
      let new_book_id := (st.db.books.map (fun b => b.book_id)).foldr max 0 + 1
      match form.filePart with
      | none => (.json 400 (errJ "No file uploaded"), st)
      | some f =>
        if f.filename == "" then (.json 400 (errJ "No file selected"), st)
        else if ¬ allowed_file f.filename then
          (.json 400 (errJ "Invalid file type"), st)
        else
          let file_ext := splitext_ext f.filename
          let epub_filename := toString new_book_id ++ file_ext
          let full_file_path :=
            FILE_UPLOAD_FOLDER ++ "/" ++ epub_filename ++ ".enc"
          let fs1 := fsWrite st.fs full_file_path (encrypt_file f.content)
          let coverStep : (Resp × AppState) ⊕ (Option String × List (String × Blob)) :=
            match form.cover_image with
            | none => .inr (none, fs1)
            | some ci =>
              if ¬ (ci.filename == "") && allowed_file ci.filename then
                let cover_ext := splitext_ext ci.filename
                let cover_image_filename := toString new_book_id ++ cover_ext
                .inr (some cover_image_filename,
                  fsWrite fs1 (IMAGE_UPLOAD_FOLDER ++ "/" ++ cover_image_filename)
                    (Blob.raw ci.content))
              else if ¬ (ci.filename == "") then
                .inl (.json 400 (errJ "Invalid cover image type"), { st with fs := fs1 })
              else .inr (none, fs1)
          match coverStep with
          | .inl out => out
          | .inr (cover_image_filename, fs2) =>
            let existing_book := st.db.books.any (fun b => b.title == title)
            let book_status := if existing_book then "pending" else "live"
            if upload_book_kwargs.all (fun k => book_mapped_attributes.contains k) then
              let new_book : Book :=
                { book_id := new_book_id
                  publisher_id := publisher_id
                  category_id := category_id
                  title := title
                  author := form.author.getD ""
                  isbn := form.isbn.getD ""
                  epub_file := some (epub_filename ++ ".enc")
                  cover_image := cover_image_filename
                  language := form.language.getD ""
                  genre := form.genre.getD ""
                  e_book_type := form.e_book_type.getD "EPUB"
                  price := form.price.getD 0
                  rental_price := form.rental_price.getD 0
                  description := form.description
                  created_at := ""
                  updated_at := "" }
              let new_file : File :=
                { file_id := nextId (st.db.files.map (fun fr => fr.file_id))
                  publisher_id := publisher_id
                  book_id := new_book_id
                  file_path := epub_filename ++ ".enc" }
              (.json 201 (.jobj
                 [("message", .jstr "Book uploaded successfully"),
                  ("book_id", .jnum new_book_id),
                  ("file_name", .jstr (epub_filename ++ ".enc")),
                  ("cover_image_name", jopt cover_image_filename),
                  ("status", .jstr book_status)]),
               { st with
                  db.books := st.db.books ++ [new_book]
                  db.files := st.db.files ++ [new_file]
                  fs := fs2 })
            else
              (.json 500 (errJ "status is an invalid keyword argument for Book"),
               { st with fs := fs2 })

/-- Serialization of a book by get_book (routes.py lines 332-346). -/
def serialize_book_pub (book : Book) : Jx :=
  .jobj [("book_id", .jnum book.book_id),
         ("title", .jstr book.title),
         ("author", .jstr book.author),
         ("isbn", .jstr book.isbn),
         ("language", .jstr book.language),
         ("genre", .jstr book.genre),
         ("e_book_type", .jstr book.e_book_type),
         ("price", .jstr (toString book.price)),
         ("rental_price", .jstr (toString book.rental_price)),
         ("description", jopt book.description),
         ("created_at", .jstr book.created_at),
         ("updated_at", .jstr book.updated_at),
         ("epub_file", jopt book.epub_file)]

/-- routes.py get_book (lines 318-349). -/
def get_book (publisher_id : Nat) (book_id : Nat) (st : AppState) :
    Resp × AppState :=
  match st.db.books.find?
      (fun b => b.book_id == book_id && b.publisher_id == publisher_id) with
  | none => (.json 404 (errJ "Book not found"), st)
  | some book => (.json 200 (serialize_book_pub book), st)

/-- routes.py delete_book (lines 391-421).  The stored file_path is a bare
filename relative to the process working directory, which is why the
os.path.exists test is made against that raw path. -/
def delete_book (publisher_id : Nat) (book_id : Nat) (st : AppState) :
    Resp × AppState :=
  match st.db.books.find?
      (fun b => b.book_id == book_id && b.publisher_id == publisher_id) with
  | none => (.json 404 (errJ "Book not found or access denied"), st)
  | some book =>
    let bookFiles := st.db.files.filter (fun f => f.book_id == book.book_id)
    let fs1 := bookFiles.foldl
      (fun fs f => if (fsLookup fs f.file_path).isSome then fsRemove fs f.file_path else fs)
      st.fs
    (.json 200 (msgJ "Book and associated files deleted successfully"),
     { st with
        db.files := st.db.files.filter (fun f => ¬ (f.book_id == book.book_id))
        db.books := st.db.books.filter (fun b => ¬ (b.book_id == book.book_id))
        fs := fs1 })

/-- routes.py update_book (lines 424-505).  Field defaults come from the
stored row; a bad content-file extension aborts before any write, while a
bad cover-image extension aborts after the content file was written (the
pending ORM field changes are discarded with the session). -/
def update_book (publisher_id : Nat) (book_id : Nat) (form : UploadForm)
    (st : AppState) : Resp × AppState :=
  match st.db.books.find?
      (fun b => b.book_id == book_id && b.publisher_id == publisher_id) with
  | none => (.json 404 (errJ "Book not found"), st)
  | some book =>
    let category_id := form.category_id.getD book.category_id
    match st.db.categories.find?
        (fun c => c.category_id == category_id && c.publisher_id == publisher_id) with
    | none => (.json 400 (errJ "Invalid category ID"), st)
    | some _ =>
      let contentStep : (Resp × AppState) ⊕ (Option String × List (String × Blob)) :=
        match form.filePart with
        | none => .inr (none, st.fs)
        | some f =>
          if ¬ (f.filename == "") then
            if allowed_file f.filename then
              let file_ext := splitext_ext f.filename
              let epub_filename := toString book.book_id ++ file_ext
              .inr (some (epub_filename ++ ".enc"),
                fsWrite st.fs (FILE_UPLOAD_FOLDER ++ "/" ++ epub_filename ++ ".enc")
                  (encrypt_file f.content))
            else .inl (.json 400 (errJ "Invalid file type"), st)
          else .inr (none, st.fs)
      match contentStep with
      | .inl out => out
      | .inr (newEpub, fs1) =>
        let coverStep : (Resp × AppState) ⊕ (Option String × List (String × Blob)) :=
          match form.cover_image with
          | none => .inr (none, fs1)
          | some ci =>
            if ¬ (ci.filename == "") then
              if allowed_file ci.filename then
                let cover_ext := splitext_ext ci.filename
                let cover_image_filename := toString book.book_id ++ cover_ext
                .inr (some cover_image_filename,
                  fsWrite fs1 (IMAGE_UPLOAD_FOLDER ++ "/" ++ cover_image_filename)
                    (Blob.raw ci.content))
              else .inl (.json 400 (errJ "Invalid cover image type"), { st with fs := fs1 })
            else .inr (none, fs1)
        match coverStep with
        | .inl out => out
        | .inr (newCover, fs2) =>
          let book' : Book :=
            { book with
               title := form.title.getD book.title
               author := form.author.getD book.author
               isbn := form.isbn.getD book.isbn
               category_id := category_id
               language := form.language.getD book.language
               genre := form.genre.getD book.genre
               e_book_type := form.e_book_type.getD book.e_book_type
               price := form.price.getD book.price
               rental_price := form.rental_price.getD book.rental_price
               description := match form.description with
                 | some d => some d
                 | none => book.description
               epub_file := match newEpub with
                 | some fn => some fn
                 | none => book.epub_file
               cover_image := match newCover with
                 | some fn => some fn
                 | none => book.cover_image }
          (.json 200 (.jobj
             [("message", .jstr "Book updated successfully"),
              ("book_id", .jnum book.book_id),
              ("file_name", jopt book'.epub_file),
              ("cover_image_name", jopt book'.cover_image)]),
           { st with
              db.books := st.db.books.map
                (fun b => if b.book_id == book.book_id then book' else b)
              fs := fs2 })

/-- JSON request body of add_highlight. -/
structure HighlightBody where
  book_id : Option Nat
  text : Option String
  highlight_range : Option String
  color : Option String
deriving DecidableEq, Repr

/-- routes.py add_highlight (lines 554-598).  This is the one route
without the jwt_required decorator, and nothing else verifies the token
on the request, so once the field-presence check (line 560) passes,
get_jwt_identity at line 564 raises RuntimeError on every request - with
or without a valid bearer token (flask-jwt-extended 4.x, the version
pinned by the jwt_required() call form used on every other handler) -
and Flask answers its plain 500 page with no database access.  The
identity argument is the verified-token identity a decorator would have
supplied; absent the decorator it is never consulted, and the rest of
the handler body - reader and book lookups and the Highlight constructor
that hard-codes reader_id=1 (line 578) - is unreachable. -/
def add_highlight (identity : Option Nat) (data : HighlightBody)
    (st : AppState) : Resp × AppState :=
  if ¬ (data.book_id.isSome && data.text.isSome && data.highlight_range.isSome &&
        data.color.isSome) then
    (.json 400 (errJ "Missing required fields"), st)
  else
    (.httpError 500 "Internal Server Error", st)

/-- Transcription of the reader_id keyword of the (unreachable) Highlight
constructor call in add_highlight, routes.py line 578: the literal 1, not
the token-derived identity. -/
def add_highlight_dead_insert_reader_id : Nat := 1

/-- JSON request body of purchase_book. -/
structure PurchaseBody where
  book_id : Option Nat
deriving DecidableEq, Repr

/-- routes.py purchase_book (lines 727-773).  The already-purchased test
filters on reader, book and bookmark == 0. -/
def purchase_book (reader_id : Nat) (data : PurchaseBody) (st : AppState) :
    Resp × AppState :=
  match data.book_id with
  | none => (.json 400 (errJ "Missing required fields"), st)
  | some book_id =>
    match st.db.readers.find? (fun r => r.reader_id == reader_id) with
    | none => (.json 404 (errJ "Reader not found"), st)
    | some _ =>
      match st.db.books.find? (fun b => b.book_id == book_id) with
      | none => (.json 404 (errJ "Book not found"), st)
      | some _ =>
        match st.db.booksPurchased.find?
            (fun p => p.reader_id == reader_id && p.book_id == book_id &&
                      p.bookmark == 0) with
        | some _ => (.json 400 (errJ "Book already purchased"), st)
        | none =>
          let bp : BooksPurchased :=
            { bp_id := nextId (st.db.booksPurchased.map (fun p => p.bp_id))
              reader_id := reader_id
              book_id := book_id
              bookmark := 0 }
          (.json 201 (.jobj
             [("message", .jstr "Book purchased successfully"),
              ("purchase", .jobj
                [("bp_id", .jnum bp.bp_id),
                 ("book_id", .jnum bp.book_id),
                 ("bookmark", .jnum (bp.bookmark : Int))])]),
           { st with db.booksPurchased := st.db.booksPurchased ++ [bp] })

/-- routes.py serve_epub (lines 985-993): joins the upload folder with the
requested filename, send_file on the stored blob as-is when present,
abort(404) otherwise.  No decryption is applied. -/
def serve_epub (filename : String) (st : AppState) : Resp × AppState :=
  let file_path := FILE_UPLOAD_FOLDER ++ "/" ++ filename
  match fsLookup st.fs file_path with
  | some content => (.file 200 content, st)
  | none => (.httpError 404 "File not found", st)

/-- One registered route of the application: blueprint (with its url
prefix from app/__init__.py), rule, methods, handler name, and whether
the handler is protected by the jwt_required decorator. -/
structure Endpoint where
  blueprint : String
  rule : String
  methods : List String
  handler : String
  jwt_required : Bool
deriving DecidableEq, Repr

/-- All routes registered in src/app/routes.py, in source order, with the
presence of the jwt_required decorator transcribed per handler. -/
def endpoints : List Endpoint :=
  [⟨"auth", "/pub/register", ["POST"], "pub_register", false⟩,
   ⟨"auth", "/pub/login", ["POST"], "login", false⟩,
   ⟨"book", "/pub/add_category", ["POST"], "add_category", true⟩,
   ⟨"book", "/pub/get_categories", ["GET"], "get_categories", true⟩,
   ⟨"book", "/pub/delete_category/<int:category_id>", ["DELETE"], "delete_category", true⟩,
   ⟨"files", "/pub/upload_book", ["POST"], "upload_book", true⟩,
   ⟨"book", "/pub/get_books_by_cat/<int:category_id>", ["GET"], "get_books_by_cat", true⟩,
   ⟨"book", "/pub/get_book/<int:book_id>", ["GET"], "get_book", true⟩,
   ⟨"book", "/pub/get_all_books", ["GET"], "get_books", true⟩,
   ⟨"book", "/pub/delete_book/<int:book_id>", ["DELETE"], "delete_book", true⟩,
   ⟨"files", "/pub/update_book/<int:book_id>", ["PUT"], "update_book", true⟩,
   ⟨"auth", "/reader/register", ["POST"], "reader_register", false⟩,
   ⟨"auth", "/reader/login", ["POST"], "reader_login", false⟩,
   ⟨"book", "/reader/add_highlight", ["POST"], "add_highlight", false⟩,
   ⟨"book", "reader/get_highlights/<int:book_id>", ["GET"], "get_highlights", true⟩,
   ⟨"book", "/reader/add_note", ["POST"], "add_note", true⟩,
   ⟨"book", "/reader/get_notes/<int:book_id>", ["GET"], "get_notes", true⟩,
   ⟨"book", "/reader/purchase_book", ["POST"], "purchase_book", true⟩,
   ⟨"book", "/reader/get_purchased_books", ["GET"], "get_purchased_books", true⟩,
   ⟨"book", "/reader/get_book/<int:book_id>", ["GET"], "get_reader_book", true⟩,
   ⟨"book", "/reader/add_cart", ["POST"], "add_to_cart", true⟩,
   ⟨"book", "reader/get_cart", ["GET"], "get_cart", true⟩,
   ⟨"book", "reader/delete_cart/<int:cart_id>", ["DELETE"], "delete_cart", true⟩,
   ⟨"book", "/reader/add_wishlist", ["POST"], "add_to_wishlist", true⟩,
   ⟨"book", "/reader/get_wishlist", ["GET"], "get_wishlist", true⟩,
   ⟨"book", "/reader/delete_wishlist/<int:wishlist_id>", ["DELETE"], "delete_wishlist", true⟩,
   ⟨"book", "/stream/<filename>", ["GET"], "serve_epub", true⟩]

/-- The four registration and login endpoints (the auth blueprint). -/
def auth_exempt_handlers : List String :=
  ["pub_register", "login", "reader_register", "reader_login"]

/-- Sample publisher row used by the concrete witnesses. -/
def samplePub1 : Publisher :=
  { publisher_id := 1, name := "P1", email := "dup@x.com", password := "h1"
    phone := "111", geo_location := "g", address := "a" }

/-- Second sample publisher, distinct from samplePub1. -/
def samplePub2 : Publisher :=
  { publisher_id := 2, name := "P2", email := "p2@x.com", password := "h2"
    phone := "222", geo_location := "g", address := "a" }

/-- Sample reader row; its email coincides with samplePub1 so one witness
state exercises both duplicate-email branches. -/
def sampleReader1 : Reader :=
  { reader_id := 1, name := "R1", email := "dup@x.com", password := "h3"
    phone := "333", geo_location := "g", address := "a" }

/-- Second sample reader. -/
def sampleReader2 : Reader :=
  { reader_id := 2, name := "R2", email := "r2@x.com", password := "h4"
    phone := "444", geo_location := "g", address := "a" }

/-- Sample book owned by publisher 1 in category 1. -/
def sampleBook1 : Book :=
  { book_id := 1, publisher_id := 1, category_id := 1, title := "T"
    author := "A", isbn := "I", epub_file := some "1.epub.enc"
    cover_image := none, language := "en", genre := "g", e_book_type := "EPUB"
    price := 10, rental_price := 2, description := none
    created_at := "2025-01-01 00:00:00", updated_at := "2025-01-01 00:00:00" }

/-- Sample database: two publishers, one category and book of publisher 1,
two readers, no highlights, notes or purchases yet. -/
def sampleDB : DB :=
  { publishers := [samplePub1, samplePub2]
    categories := [{ category_id := 1, publisher_id := 1
                     category_name := "Fiction", description := "d" }]
    books := [sampleBook1]
    files := [{ file_id := 1, publisher_id := 1, book_id := 1
                file_path := "1.epub.enc" }]
    readers := [sampleReader1, sampleReader2]
    highlights := []
    notes := []
    booksPurchased := []
    carts := [] }

/-- Sample application state: the database above plus the stored encrypted
book file. -/
def sampleState : AppState :=
  { db := sampleDB
    fs := [("uploads/files/1.epub.enc", Blob.fernet [1, 2, 3])] }

/-- A fully valid upload form (allowed epub extension, no cover image). -/
def sampleUploadForm : UploadForm :=
  { title := some "New", author := some "A", isbn := some "X"
    category_id := some 1, language := none, genre := none
    e_book_type := none, price := none, rental_price := none
    description := none, filePart := some ⟨"b.epub", [9, 9]⟩
    cover_image := none }

/-- The same form with a disallowed content-file extension. -/
def badExtUploadForm : UploadForm :=
  { sampleUploadForm with filePart := some ⟨"b.exe", [7]⟩ }

/-- A complete add_highlight request body naming book 1. -/
def sampleHighlightBody : HighlightBody :=
  { book_id := some 1, text := some "word", highlight_range := some "10-20"
    color := some "yellow" }

/-- An empty add_highlight request body (no fields). -/
def emptyHighlightBody : HighlightBody :=
  { book_id := none, text := none, highlight_range := none, color := none }

/-- A registration body whose email duplicates samplePub1 and
sampleReader1. -/
def dupEmailBody : RegisterBody :=
  [("name", "N"), ("email", "dup@x.com"), ("password", "pw"),
   ("phone", "000"), ("geo_location", "g"), ("address", "a")]

/-- State in which reader 2 already holds a purchase row for book 1 whose
bookmark has progressed to 40. -/
def progressedPurchaseState : AppState :=
  { sampleState with db.booksPurchased := [⟨1, 2, 1, 40⟩] }

/-- C1: the spec lists Wishlist among the relational models of the
persistence layer, so that the wishlist handlers referencing it are
well-defined.  The code violates this: routes.py imports Wishlist from
.models, but models.py declares no such class, so the import itself
fails. -/
theorem c1_wishlist_model_missing :
    "Wishlist" ∈ routes_model_imports ∧ "Wishlist" ∉ models_declared_classes := by
  decide

/-- C3: the claim says an authenticated add_highlight request for token
identity r (an existing reader) naming an existing book creates a
Highlight row with reader_id r.  Evaluated at the failing input (token
identity 2, reader 2 and book 1 both existing, complete body), the
handler - which lacks the jwt_required decorator, so get_jwt_identity
raises once the field check passes - answers 500 and leaves the state
unchanged: no Highlight row is created at all, let alone one with
reader_id 2; and the reader_id the unreachable constructor call at line
578 would have used is the hard-coded 1, not the token identity. -/
theorem c3_add_highlight_never_attributes_to_token_identity :
    sampleReader2 ∈ sampleState.db.readers ∧ sampleReader2.reader_id = 2 ∧
    (∃ b ∈ sampleState.db.books, b.book_id = sampleHighlightBody.book_id.getD 0) ∧
    (add_highlight (some 2) sampleHighlightBody sampleState).1.status = 500 ∧
    (add_highlight (some 2) sampleHighlightBody sampleState).2 = sampleState ∧
    add_highlight_dead_insert_reader_id = 1 ∧ (1 : Nat) ≠ 2 := by
  decide

/-- C4: the claim says every endpoint outside the four registration/login
ones rejects a tokenless request with 401.  The endpoint table shows
add_highlight is the one non-auth handler without the jwt_required
decorator, and a tokenless request to it with an empty body is answered by
the handler itself with 400 (missing fields), not 401, the database left
unchanged. -/
theorem c4_add_highlight_unprotected :
    ((endpoints.filter (fun e => ¬ (auth_exempt_handlers.contains e.handler) &&
        ¬ e.jwt_required)).map (fun e => e.handler)) = ["add_highlight"] ∧
    (add_highlight none emptyHighlightBody sampleState).1.status = 400 ∧
    (add_highlight none emptyHighlightBody sampleState).2 = sampleState ∧
    (400 : Nat) ≠ 401 := by
  decide

/-- C10: serve_epub returns exactly the stored blob (in particular a
stored Fernet ciphertext is returned as that ciphertext, with no
decryption transform) when the joined path exists in the upload folder,
and a 404 not-found outcome otherwise. -/
theorem c10_serve_epub_returns_stored_bytes (st : AppState) (filename : String) :
    (∀ b, fsLookup st.fs (FILE_UPLOAD_FOLDER ++ "/" ++ filename) = some b →
        serve_epub filename st = (Resp.file 200 b, st)) ∧
    (∀ bs, fsLookup st.fs (FILE_UPLOAD_FOLDER ++ "/" ++ filename) =
          some (Blob.fernet bs) →
        serve_epub filename st = (Resp.file 200 (Blob.fernet bs), st)) ∧
    (fsLookup st.fs (FILE_UPLOAD_FOLDER ++ "/" ++ filename) = none →
        serve_epub filename st = (Resp.httpError 404 "File not found", st)) := by
  refine ⟨fun b h => ?_, fun bs h => ?_, fun h => ?_⟩ <;>
    simp only [serve_epub] <;> rw [h]

/-- Witness for C10 on the sample state: the stored ciphertext of book 1
is served verbatim, and a missing name yields 404. -/
theorem c10_witness :
    serve_epub "1.epub.enc" sampleState
      = (Resp.file 200 (Blob.fernet [1, 2, 3]), sampleState) ∧
    serve_epub "nope.enc" sampleState
      = (Resp.httpError 404 "File not found", sampleState) :=
  ⟨(c10_serve_epub_returns_stored_bytes sampleState "1.epub.enc").1
      (Blob.fernet [1, 2, 3]) rfl,
   (c10_serve_epub_returns_stored_bytes sampleState "nope.enc").2.2 rfl⟩

/-- C7: a registration request whose email is already registered in the
corresponding table is answered with 400 and leaves the state (in
particular the publisher, respectively reader, rows) unchanged, for both
pub_register and reader_register. -/
theorem c7_duplicate_email_registration_rejected
    (data : RegisterBody) (st : AppState) (e : String)
    (hemail : getKey data "email" = some e) :
    ((∃ p ∈ st.db.publishers, p.email = e) →
        (pub_register data st).1.status = 400 ∧ (pub_register data st).2 = st) ∧
    ((∃ r ∈ st.db.readers, r.email = e) →
        (reader_register data st).1.status = 400 ∧ (reader_register data st).2 = st) := by
  constructor
  · rintro ⟨p, hp, hpe⟩
    by_cases hreq : register_required_fields.all (fun f => hasKey data f) = true
    · have hany : st.db.publishers.any
          (fun q => q.email == (getKey data "email").getD "") = true := by
        rw [hemail]
        exact List.any_eq_true.mpr ⟨p, hp, by simp [hpe]⟩
      simp [pub_register, hreq, hany, Resp.status]
    · simp [pub_register, hreq, Resp.status]
  · rintro ⟨r, hr, hre⟩
    by_cases hreq : register_required_fields.all (fun f => hasKey data f) = true
    · have hany : st.db.readers.any
          (fun q => q.email == (getKey data "email").getD "") = true := by
        rw [hemail]
        exact List.any_eq_true.mpr ⟨r, hr, by simp [hre]⟩
      simp [reader_register, hreq, hany, Resp.status]
    · simp [reader_register, hreq, Resp.status]

/-- Witness for C7 on the sample state: registering with the already-used
email dup@x.com is rejected by both registration endpoints without a new
row. -/
theorem c7_witness :
    ((pub_register dupEmailBody sampleState).1.status = 400 ∧
     (pub_register dupEmailBody sampleState).2 = sampleState) ∧
    ((reader_register dupEmailBody sampleState).1.status = 400 ∧
     (reader_register dupEmailBody sampleState).2 = sampleState) :=
  ⟨(c7_duplicate_email_registration_rejected dupEmailBody sampleState
      "dup@x.com" rfl).1 (by decide),
   (c7_duplicate_email_registration_rejected dupEmailBody sampleState
      "dup@x.com" rfl).2 (by decide)⟩

/-- C9: for a category owned by the requesting publisher, delete_category
answers 400 and changes nothing when some book references the category,
and deletes exactly the category row (books untouched) when no book
references it. -/
theorem c9_delete_category_blocked_by_books
    (st : AppState) (p : Nat) (c : Category)
    (hc : c ∈ st.db.categories) (hp : c.publisher_id = p) :
    ((∃ b ∈ st.db.books, b.category_id = c.category_id) →
        (delete_category p c.category_id st).1.status = 400 ∧
        (delete_category p c.category_id st).2 = st) ∧
    ((∀ b ∈ st.db.books, b.category_id ≠ c.category_id) →
        (delete_category p c.category_id st).1.status = 200 ∧
        (delete_category p c.category_id st).2.db.books = st.db.books ∧
        (delete_category p c.category_id st).2.db.categories =
          st.db.categories.filter (fun q => ¬ (q.category_id == c.category_id))) := by
  have hcat : (st.db.categories.find?
      (fun q => q.category_id == c.category_id && q.publisher_id == p)).isSome := by
    exact List.find?_isSome.mpr ⟨c, hc, by simp [hp]⟩
  obtain ⟨c0, hc0⟩ := Option.isSome_iff_exists.mp hcat
  constructor
  · rintro ⟨b, hb, hbe⟩
    have hbook : (st.db.books.find? (fun q => q.category_id == c.category_id)).isSome :=
      List.find?_isSome.mpr ⟨b, hb, by simp [hbe]⟩
    obtain ⟨b0, hb0⟩ := Option.isSome_iff_exists.mp hbook
    simp [delete_category, hc0, hb0, Resp.status]
  · intro hnone
    have hbook : st.db.books.find? (fun q => q.category_id == c.category_id) = none :=
      List.find?_eq_none.mpr (fun b hb => by simp [hnone b hb])
    simp [delete_category, hc0, hbook, Resp.status]

/-- Witness for C9 on the sample state: category 1 of publisher 1 has an
associated book, so deletion is refused with 400 and nothing changes. -/
theorem c9_witness :
    (delete_category 1 1 sampleState).1.status = 400 ∧
    (delete_category 1 1 sampleState).2 = sampleState :=
  (c9_delete_category_blocked_by_books sampleState 1
      { category_id := 1, publisher_id := 1, category_name := "Fiction"
        description := "d" }
      (by decide) rfl).1 (by decide)

/-- C8: for an existing reader r and existing book b, purchase_book answers
400 exactly when some purchase row (r, b) with bookmark 0 exists; otherwise
it appends a fresh purchase row with bookmark 0 - so once every prior row
for (r, b) has a nonzero bookmark, a second purchase succeeds and a
duplicate row is created. -/
theorem c8_purchase_gate_keyed_on_zero_bookmark
    (st : AppState) (r bid : Nat)
    (hr : ∃ rr ∈ st.db.readers, rr.reader_id = r)
    (hb : ∃ b ∈ st.db.books, b.book_id = bid) :
    (((purchase_book r ⟨some bid⟩ st).1.status = 400) ↔
        ∃ q ∈ st.db.booksPurchased,
          q.reader_id = r ∧ q.book_id = bid ∧ q.bookmark = 0) ∧
    ((∀ q ∈ st.db.booksPurchased,
          ¬ (q.reader_id = r ∧ q.book_id = bid ∧ q.bookmark = 0)) →
        (purchase_book r ⟨some bid⟩ st).1.status = 201 ∧
        (purchase_book r ⟨some bid⟩ st).2.db.booksPurchased =
          st.db.booksPurchased ++
            [{ bp_id := nextId (st.db.booksPurchased.map (fun q => q.bp_id))
               reader_id := r, book_id := bid, bookmark := 0 }]) := by
  obtain ⟨rr, hrr, hrre⟩ := hr
  obtain ⟨b, hbb, hbbe⟩ := hb
  have hr0x : (st.db.readers.find? (fun q => q.reader_id == r)).isSome :=
    List.find?_isSome.mpr ⟨rr, hrr, by simp [hrre]⟩
  obtain ⟨r0, hr0⟩ := Option.isSome_iff_exists.mp hr0x
  have hb0x : (st.db.books.find? (fun q => q.book_id == bid)).isSome :=
    List.find?_isSome.mpr ⟨b, hbb, by simp [hbbe]⟩
  obtain ⟨b0, hb0⟩ := Option.isSome_iff_exists.mp hb0x
  constructor
  · cases hdup : st.db.booksPurchased.find?
        (fun q => q.reader_id == r && q.book_id == bid && q.bookmark == 0) with
    | none =>
      have hno := List.find?_eq_none.mp hdup
      constructor
      · intro habs
        simp [purchase_book, hr0, hb0, hdup, Resp.status] at habs
      · rintro ⟨q, hq, hq1, hq2, hq3⟩
        exact absurd (by simp [hq1, hq2, hq3]) (hno q hq)
    | some q0 =>
      have hmem := List.mem_of_find?_eq_some hdup
      have hqprop := List.find?_some hdup
      simp only [Bool.and_eq_true, beq_iff_eq] at hqprop
      constructor
      · intro _
        exact ⟨q0, hmem, hqprop.1.1, hqprop.1.2, hqprop.2⟩
      · intro _
        simp [purchase_book, hr0, hb0, hdup, Resp.status]
  · intro hnone
    have hdup : st.db.booksPurchased.find?
        (fun q => q.reader_id == r && q.book_id == bid && q.bookmark == 0) = none := by
      apply List.find?_eq_none.mpr
      intro q hq hcontra
      simp only [Bool.and_eq_true, beq_iff_eq] at hcontra
      exact hnone q hq ⟨hcontra.1.1, hcontra.1.2, hcontra.2⟩
    simp [purchase_book, hr0, hb0, hdup, Resp.status]

/-- Witness for C8: reader 2 already has a purchase row for book 1 with
bookmark 40 (nonzero), so a new purchase is accepted with 201 and a
duplicate row with bookmark 0 is appended. -/
theorem c8_witness :
    (((purchase_book 2 ⟨some 1⟩ progressedPurchaseState).1.status = 400) ↔
        ∃ q ∈ progressedPurchaseState.db.booksPurchased,
          q.reader_id = 2 ∧ q.book_id = 1 ∧ q.bookmark = 0) ∧
    (purchase_book 2 ⟨some 1⟩ progressedPurchaseState).1.status = 201 ∧
    (purchase_book 2 ⟨some 1⟩ progressedPurchaseState).2.db.booksPurchased =
      progressedPurchaseState.db.booksPurchased ++
        [{ bp_id := nextId (progressedPurchaseState.db.booksPurchased.map
             (fun q => q.bp_id))
           reader_id := 2, book_id := 1, bookmark := 0 }] :=
  ⟨(c8_purchase_gate_keyed_on_zero_bookmark progressedPurchaseState 2 1
      (by decide) (by decide)).1,
   (c8_purchase_gate_keyed_on_zero_bookmark progressedPurchaseState 2 1
      (by decide) (by decide)).2 (by decide)⟩

/-- C6: an upload_book request whose content file has no dot-extension, or
an extension whose lowercasing is outside ALLOWED_EXTENSIONS, is answered
with 400 and leaves the database and the disk unchanged (the extension
check precedes every write and every insert). -/
theorem c6_upload_rejects_disallowed_extension
    (p : Nat) (form : UploadForm) (st : AppState) (f : FilePart)
    (hfile : form.filePart = some f)
    (hext : f.filename.toList.contains '.' = false ∨
        last_dot_ext f.filename ∉ ALLOWED_EXTENSIONS) :
    (upload_book p form st).1.status = 400 ∧ (upload_book p form st).2 = st := by
  have hall : allowed_file f.filename = false := by
    rcases hext with h | h
    · unfold allowed_file
      rw [h, Bool.false_and]
    · have hc : ALLOWED_EXTENSIONS.contains (last_dot_ext f.filename) = false := by
        simpa using h
      unfold allowed_file
      rw [hc, Bool.and_false]
  by_cases hreq : (truthyS form.title && truthyS form.author &&
      truthyS form.isbn && form.category_id.isSome) = true
  · cases hcat : st.db.categories.find?
        (fun c => c.category_id == form.category_id.getD 0 && c.publisher_id == p) with
    | none => simp [upload_book, hreq, hcat, Resp.status]
    | some c0 =>
      by_cases hfn : (f.filename == "") = true
      · simp [upload_book, hreq, hcat, hfile, hfn, Resp.status]
      · simp [upload_book, hreq, hcat, hfile, hfn, hall, Resp.status]
  · simp [upload_book, hreq, Resp.status]

/-- Witness for C6: uploading b.exe (extension exe, outside the allowed
set) on the sample state yields 400 with nothing created. -/
theorem c6_witness :
    (upload_book 1 badExtUploadForm sampleState).1.status = 400 ∧
    (upload_book 1 badExtUploadForm sampleState).2 = sampleState :=
  c6_upload_rejects_disallowed_extension 1 badExtUploadForm sampleState
    ⟨"b.exe", [7]⟩ rfl (Or.inr (by decide))

/-- C5: for a book owned by publisher P and an authenticated publisher Q
distinct from P, get_book, update_book and delete_book invoked by Q on
that book id return exactly the response they return for an id that
matches no book at all (status 404), and leave the state unchanged.  The
hpk hypothesis is the primary-key invariant of the book table. -/
theorem c5_foreign_book_indistinguishable_from_absent
    (st : AppState) (b : Book) (q nid : Nat) (form : UploadForm)
    (hb : b ∈ st.db.books)
    (hq : q ≠ b.publisher_id)
    (hpk : ∀ b2 ∈ st.db.books, b2.book_id = b.book_id → b2 = b)
    (hnid : ∀ b2 ∈ st.db.books, b2.book_id ≠ nid) :
    get_book q b.book_id st = get_book q nid st ∧
    (get_book q b.book_id st).1.status = 404 ∧
    (get_book q b.book_id st).2 = st ∧
    delete_book q b.book_id st = delete_book q nid st ∧
    (delete_book q b.book_id st).1.status = 404 ∧
    (delete_book q b.book_id st).2 = st ∧
    update_book q b.book_id form st = update_book q nid form st ∧
    (update_book q b.book_id form st).1.status = 404 ∧
    (update_book q b.book_id form st).2 = st := by
  have h1 : st.db.books.find?
      (fun b2 => b2.book_id == b.book_id && b2.publisher_id == q) = none := by
    apply List.find?_eq_none.mpr
    intro b2 hb2 hcontra
    simp only [Bool.and_eq_true, beq_iff_eq] at hcontra
    rw [hpk b2 hb2 hcontra.1] at hcontra
    exact hq hcontra.2.symm
  have h2 : st.db.books.find?
      (fun b2 => b2.book_id == nid && b2.publisher_id == q) = none := by
    apply List.find?_eq_none.mpr
    intro b2 hb2 hcontra
    simp only [Bool.and_eq_true, beq_iff_eq] at hcontra
    exact hnid b2 hb2 hcontra.1
  refine ⟨?_, ?_, ?_, ?_, ?_, ?_, ?_, ?_, ?_⟩ <;>
    simp [get_book, delete_book, update_book, h1, h2, Resp.status]

/-- Witness for C5: publisher 2 querying book 1 (owned by publisher 1) is
answered exactly as for the absent book id 99, with 404 and no change, on
all three endpoints. -/
theorem c5_witness :
    get_book 2 1 sampleState = get_book 2 99 sampleState ∧
    (get_book 2 1 sampleState).1.status = 404 ∧
    (get_book 2 1 sampleState).2 = sampleState ∧
    delete_book 2 1 sampleState = delete_book 2 99 sampleState ∧
    (delete_book 2 1 sampleState).1.status = 404 ∧
    (delete_book 2 1 sampleState).2 = sampleState ∧
    update_book 2 1 sampleUploadForm sampleState
      = update_book 2 99 sampleUploadForm sampleState ∧
    (update_book 2 1 sampleUploadForm sampleState).1.status = 404 ∧
    (update_book 2 1 sampleUploadForm sampleState).2 = sampleState :=
  c5_foreign_book_indistinguishable_from_absent sampleState sampleBook1 2 99
    sampleUploadForm (by decide) (by decide) (by decide) (by decide)

/-- Writing a path and reading it back yields the written blob. -/
theorem fsLookup_fsWrite_self (fs : List (String × Blob)) (p : String) (b : Blob) :
    fsLookup (fsWrite fs p b) p = some b := by
  unfold fsLookup fsWrite
  rw [List.find?_cons_of_pos _ (by simp)]
  rfl

/-- The filter performed by an overwrite of one path does not affect the
lookup of a different path. -/
theorem find?_path_filter (p1 p2 : String) (h : ¬ (p2 = p1))
    (fs : List (String × Blob)) :
    (fs.filter (fun e => ¬ (e.1 == p2))).find? (fun e => e.1 == p1)
      = fs.find? (fun e => e.1 == p1) := by
  induction fs with
  | nil => rfl
  | cons e t ih =>
    by_cases h2 : e.1 = p2
    · rw [List.filter_cons_of_neg (by simp [h2]),
        List.find?_cons_of_neg _ (by simp [h2, h])]
      exact ih
    · rw [List.filter_cons_of_pos (by simp [h2])]
      by_cases h1 : e.1 = p1
      · rw [List.find?_cons_of_pos _ (by simp [h1]),
          List.find?_cons_of_pos _ (by simp [h1])]
      · rw [List.find?_cons_of_neg _ (by simp [h1]),
          List.find?_cons_of_neg _ (by simp [h1])]
        exact ih

/-- Writing one path leaves the lookup of a different path unchanged. -/
theorem fsLookup_fsWrite_ne (fs : List (String × Blob)) (p1 p2 : String)
    (b : Blob) (h : ¬ (p2 = p1)) :
    fsLookup (fsWrite fs p2 b) p1 = fsLookup fs p1 := by
  unfold fsLookup fsWrite
  rw [List.find?_cons_of_neg _ (by simp [h]), find?_path_filter p1 p2 h]

/-- A path in the cover-image folder is never a path in the book-file
folder (they differ at character nine). -/
theorem image_vs_content_path_ne (a b : String) :
    ¬ (IMAGE_UPLOAD_FOLDER ++ "/" ++ a = FILE_UPLOAD_FOLDER ++ "/" ++ b ++ ".enc") := by
  intro h
  have hd : "uploads/cover_images/".data ++ a.data
      = ("uploads/files/".data ++ b.data) ++ ".enc".data := by
    have h1 : (IMAGE_UPLOAD_FOLDER ++ "/" ++ a).data
        = "uploads/cover_images/".data ++ a.data := rfl
    have h2 : (FILE_UPLOAD_FOLDER ++ "/" ++ b ++ ".enc").data
        = ("uploads/files/".data ++ b.data) ++ ".enc".data := rfl
    rw [← h1, ← h2, h]
  have h8 : ("uploads/cover_images/".data ++ a.data)[8]?
      = (("uploads/files/".data ++ b.data) ++ ".enc".data)[8]? := by rw [hd]
  have e1 : ("uploads/cover_images/".data ++ a.data)[8]? = some 'c' := by
    rw [List.getElem?_append_left (by decide)]
    decide
  have hlen : 8 < ("uploads/files/".data ++ b.data).length := by
    rw [List.length_append]
    have h14 : ("uploads/files/".data).length = 14 := rfl
    omega
  have e2 : (("uploads/files/".data ++ b.data) ++ ".enc".data)[8]? = some 'f' := by
    rw [List.getElem?_append_left hlen, List.getElem?_append_left (by decide)]
    decide
  rw [e1, e2] at h8
  exact absurd h8 (by decide)

/-- C2: an upload_book request that passes every validation (required
fields truthy, category owned by the token publisher, content file present
with an allowed extension, cover image absent or valid) reaches the Book
constructor call carrying the status keyword, which no Book attribute
matches, so the handler answers 500 while the encrypted content file (and
any cover image) is already on disk and the rolled-back database gains no
Book or File row. -/
theorem c2_upload_book_valid_request_orphans_file
    (p : Nat) (form : UploadForm) (st : AppState) (f : FilePart)
    (hfields : (truthyS form.title && truthyS form.author && truthyS form.isbn &&
        form.category_id.isSome) = true)
    (hcat : ∃ c ∈ st.db.categories,
        c.category_id = form.category_id.getD 0 ∧ c.publisher_id = p)
    (hfile : form.filePart = some f)
    (hfn : (f.filename == "") = false)
    (hallowed : allowed_file f.filename = true)
    (hcover : ∀ ci, form.cover_image = some ci →
        (ci.filename = "" ∨ allowed_file ci.filename = true)) :
    (upload_book p form st).1.status = 500 ∧
    (upload_book p form st).2.db = st.db ∧
    fsLookup (upload_book p form st).2.fs
        (FILE_UPLOAD_FOLDER ++ "/" ++
          (toString ((st.db.books.map (fun b2 => b2.book_id)).foldr max 0 + 1) ++
            splitext_ext f.filename) ++ ".enc")
      = some (encrypt_file f.content) ∧
    (∀ ci, form.cover_image = some ci → (ci.filename == "") = false →
        fsLookup (upload_book p form st).2.fs
            (IMAGE_UPLOAD_FOLDER ++ "/" ++
              (toString ((st.db.books.map (fun b2 => b2.book_id)).foldr max 0 + 1) ++
                splitext_ext ci.filename))
          = some (Blob.raw ci.content)) := by
  have hc0x : (st.db.categories.find?
      (fun c => c.category_id == form.category_id.getD 0 && c.publisher_id == p)).isSome := by
    obtain ⟨c, hc, h1, h2⟩ := hcat
    exact List.find?_isSome.mpr ⟨c, hc, by simp [h1, h2]⟩
  obtain ⟨c0, hc0⟩ := Option.isSome_iff_exists.mp hc0x
  have hkw : (upload_book_kwargs.all (fun k => book_mapped_attributes.contains k))
      = false := by decide
  rcases hcv : form.cover_image with _ | ci
  · have hval : upload_book p form st =
        (Resp.json 500 (errJ "status is an invalid keyword argument for Book"),
         (⟨st.db, fsWrite st.fs
            (FILE_UPLOAD_FOLDER ++ "/" ++
              (toString ((st.db.books.map (fun b2 => b2.book_id)).foldr max 0 + 1) ++
                splitext_ext f.filename) ++ ".enc")
            (encrypt_file f.content)⟩ : AppState)) := by
      simp [upload_book, hfields, hc0, hfile, hfn, hallowed, hcv, hkw] <;> decide
    refine ⟨by rw [hval]; rfl, by rw [hval], ?_, ?_⟩
    · rw [hval]
      exact fsLookup_fsWrite_self _ _ _
    · intro ci2 h hne
      exact Option.noConfusion h
  · by_cases he : ci.filename = ""
    · have hval : upload_book p form st =
          (Resp.json 500 (errJ "status is an invalid keyword argument for Book"),
           (⟨st.db, fsWrite st.fs
              (FILE_UPLOAD_FOLDER ++ "/" ++
                (toString ((st.db.books.map (fun b2 => b2.book_id)).foldr max 0 + 1) ++
                  splitext_ext f.filename) ++ ".enc")
              (encrypt_file f.content)⟩ : AppState)) := by
        simp [upload_book, hfields, hc0, hfile, hfn, hallowed, hcv, he, hkw] <;> decide
      refine ⟨by rw [hval]; rfl, by rw [hval], ?_, ?_⟩
      · rw [hval]
        exact fsLookup_fsWrite_self _ _ _
      · intro ci2 h hne
        injection h with h2
        subst h2
        rw [he] at hne
        simp at hne
    · have hne2 : (ci.filename == "") = false := by simp [he]
      have hok : allowed_file ci.filename = true := by
        rcases hcover ci hcv with h1 | h1
        · exact absurd h1 he
        · exact h1
      have hval : upload_book p form st =
          (Resp.json 500 (errJ "status is an invalid keyword argument for Book"),
           (⟨st.db, fsWrite
              (fsWrite st.fs
                (FILE_UPLOAD_FOLDER ++ "/" ++
                  (toString ((st.db.books.map (fun b2 => b2.book_id)).foldr max 0 + 1) ++
                    splitext_ext f.filename) ++ ".enc")
                (encrypt_file f.content))
              (IMAGE_UPLOAD_FOLDER ++ "/" ++
                (toString ((st.db.books.map (fun b2 => b2.book_id)).foldr max 0 + 1) ++
                  splitext_ext ci.filename))
              (Blob.raw ci.content)⟩ : AppState)) := by
        simp [upload_book, hfields, hc0, hfile, hfn, hallowed, hcv, hne2, hok, hkw] <;> decide
      refine ⟨by rw [hval]; rfl, by rw [hval], ?_, ?_⟩
      · rw [hval]
        exact (fsLookup_fsWrite_ne _ _ _ _ (image_vs_content_path_ne _ _)).trans
          (fsLookup_fsWrite_self _ _ _)
      · intro ci2 h hne
        injection h with h2
        subst h2
        rw [hval]
        exact fsLookup_fsWrite_self _ _ _

/-- Witness for C2: a fully valid upload by publisher 1 on the sample
state is answered 500, the database is unchanged, and the encrypted
content of b.epub sits orphaned on disk as uploads/files/2.epub.enc. -/
theorem c2_witness :
    (upload_book 1 sampleUploadForm sampleState).1.status = 500 ∧
    (upload_book 1 sampleUploadForm sampleState).2.db = sampleState.db ∧
    fsLookup (upload_book 1 sampleUploadForm sampleState).2.fs
        (FILE_UPLOAD_FOLDER ++ "/" ++
          (toString ((sampleState.db.books.map (fun b2 => b2.book_id)).foldr max 0 + 1) ++
            splitext_ext "b.epub") ++ ".enc")
      = some (encrypt_file [9, 9]) ∧
    (∀ ci, sampleUploadForm.cover_image = some ci → (ci.filename == "") = false →
        fsLookup (upload_book 1 sampleUploadForm sampleState).2.fs
            (IMAGE_UPLOAD_FOLDER ++ "/" ++
              (toString ((sampleState.db.books.map (fun b2 => b2.book_id)).foldr max 0 + 1) ++
                splitext_ext ci.filename))
          = some (Blob.raw ci.content)) :=
  c2_upload_book_valid_request_orphans_file 1 sampleUploadForm sampleState
    ⟨"b.epub", [9, 9]⟩ (by decide) (by decide) rfl (by decide) (by decide)
    (fun ci h => Option.noConfusion h)
